import Mathlib

/-!
Shallow embedding of the OAuth redirect handshake manager in
src/src/nk-auth-handler.ts.

Modelling decisions:
- Browser local storage is an association list from string keys to stored
  values.  A stored value is modelled up to the outcome of JSON.parse on it:
  `StoredVal.json j` stands for a string that JSON.parse accepts and parses
  to the JSON value `j`, and `StoredVal.raw s` stands for a string that
  JSON.parse rejects with a SyntaxError.
- JavaScript runtime values are `JSVal` (including undefined and function
  values, which JSON.stringify cannot serialize); parsed JSON values are
  `Json`.  Numbers are modelled as integers, which covers every number the
  handlers manipulate (epoch milliseconds).
- The ambient browser state (Date.now, window.location.origin, the query
  parameters of the current URL) and the nanoid(15) token are passed as
  explicit parameters; the browser navigation performed by
  window.location.assign becomes a returned `NavigationTarget` value whose
  URLSearchParams are kept as a structured key-value list.
- Thrown exceptions become `Except` results; an error carries the contents
  of local storage at the moment the exception escapes the handler.
-/

namespace NkAuth

/-- Parsed JSON values, the image of a successful JSON.parse. -/
inductive Json where
  | null
  | bool (b : Bool)
  | num (n : Int)
  | str (s : String)
  | arr (elems : List Json)
  | obj (fields : List (String × Json))

/-- JavaScript runtime values, including the values JSON cannot represent:
undefined and function values. -/
inductive JSVal where
  | undef
  | null
  | bool (b : Bool)
  | num (n : Int)
  | str (s : String)
  | arr (elems : List JSVal)
  | obj (fields : List (String × JSVal))
  | func

mutual
/-- Embeds a parsed JSON value back into the JavaScript value space
(what JSON.parse returns, seen as a runtime value). -/
def jsonToJS : Json → JSVal
  | .null => .null
  | .bool b => .bool b
  | .num n => .num n
  | .str s => .str s
  | .arr xs => .arr (jsonToJSElems xs)
  | .obj fs => .obj (jsonToJSFields fs)

def jsonToJSElems : List Json → List JSVal
  | [] => []
  | x :: xs => jsonToJS x :: jsonToJSElems xs

def jsonToJSFields : List (String × Json) → List (String × JSVal)
  | [] => []
  | (k, v) :: fs => (k, jsonToJS v) :: jsonToJSFields fs
end

mutual
/-- JSON.stringify on a JavaScript value, up to the produced JSON value;
`none` models the undefined result (stringify of undefined or of a
function).  Undefined-valued members of an object are dropped; undefined
elements of an array become null, per the ECMAScript JSON.stringify
algorithm. -/
def jsonStringify : JSVal → Option Json
  | .undef => none
  | .func => none
  | .null => some .null
  | .bool b => some (.bool b)
  | .num n => some (.num n)
  | .str s => some (.str s)
  | .arr xs => some (.arr (stringifyElems xs))
  | .obj fs => some (.obj (stringifyFields fs))

def stringifyElems : List JSVal → List Json
  | [] => []
  | x :: xs => (jsonStringify x).getD .null :: stringifyElems xs

def stringifyFields : List (String × JSVal) → List (String × Json)
  | [] => []
  | (k, v) :: fs =>
    match jsonStringify v with
    | some j => (k, j) :: stringifyFields fs
    | none => stringifyFields fs
end

/-- A value persisted in local storage, identified with the outcome of
JSON.parse on the underlying string: `json j` is a string parsing to `j`,
`raw s` is a string JSON.parse rejects. -/
inductive StoredVal where
  | json (j : Json)
  | raw (s : String)

/-- Local storage: an ordered association list of key-value entries.
localStorage.key enumerates it in order and keys are unique. -/
abbrev Store := List (String × StoredVal)

/-- Errors the handlers can surface.  The first three carry the exact
message thrown in the source; the last two are the engine-raised errors
the source can hit. -/
inductive NkError where
  /-- new Error with message Redirect missing code/state! (line 59) -/
  | missingParameters
  /-- new Error with message Missing state in local storage! (line 69) -/
  | unknownOrExpiredToken
  /-- new Error with message Redirect attempt expired! (line 77) -/
  | handshakeExpired
  /-- SyntaxError raised by JSON.parse on a string that is not JSON -/
  | syntaxError
  /-- TypeError raised by a member access on null -/
  | typeError

/-- JSON.parse on a stored string: succeeds exactly when the string is
valid JSON, otherwise raises a SyntaxError. -/
def jsonParse : StoredVal → Except NkError Json
  | .json j => .ok j
  | .raw _ => .error .syntaxError

/-- JavaScript member access `v.k` on a parsed JSON value: throws a
TypeError on null, looks the key up on an object (undefined when absent,
modelled as `none`), and yields undefined on every other primitive or
array (none of which has these named members). -/
def Json.getProp : Json → String → Except NkError (Option Json)
  | .null, _ => .error .typeError
  | .obj fs, k => .ok ((fs.find? (fun p => p.1 == k)).map (fun p => p.2))
  | _, _ => .ok none

/-- Embeds isRedirectData (src lines 105-112): the conjunction
`data.state !== undefined && data.expiresOn !== undefined`, with the
short-circuit of `&&` and the TypeError a member access on null raises. -/
def isRedirectData (data : Json) : Except NkError Bool :=
  match data.getProp "state" with
  | .error e => .error e
  | .ok s =>
    if s.isNone then .ok false
    else
      match data.getProp "expiresOn" with
      | .error e => .error e
      | .ok e => .ok e.isSome

/-- Pure reading of the isRedirectData check: a parsed value matches the
pending-handshake shape exactly when it is an object carrying both a
state and an expiresOn field. -/
def isPendingJson : Json → Bool
  | .obj fs =>
    ((fs.find? (fun p => p.1 == "state")).isSome)
      && ((fs.find? (fun p => p.1 == "expiresOn")).isSome)
  | _ => false

/-- A stored value parses as a pending handshake when it is valid JSON of
the pending-handshake shape. -/
def isPendingVal : StoredVal → Bool
  | .json j => isPendingJson j
  | .raw _ => false

/-- The store holds at least one entry whose value parses as a pending
handshake record. -/
def hasPendingEntry (s : Store) : Bool :=
  s.any (fun e => isPendingVal e.2)

/-- A stored value on which the cleanup sweep cannot raise: it parses as
JSON and the parsed value is not null (JSON.parse raises on a raw string;
isRedirectData raises a TypeError on null). -/
def cleanupSafeVal : StoredVal → Bool
  | .json .null => false
  | .json _ => true
  | .raw _ => false

/-- localStorage.setItem: replaces the value of an existing key in place,
otherwise appends a fresh entry. -/
def setItem : Store → String → StoredVal → Store
  | [], k, v => [(k, v)]
  | (k', v') :: rest, k, v =>
    if k' == k then (k, v) :: rest else (k', v') :: setItem rest k v

/-- JavaScript ToNumber coercion of a possibly-undefined parsed JSON
value, used by the comparison on line 76 of the source; `none` models NaN.
String and container coercions are approximated (numeric strings via
String.toInt?, non-singleton arrays and objects give NaN); the handlers
only ever compare numbers or undefined. -/
def jsToNumberJ : Json → Option Int
  | .null => some 0
  | .bool b => some (if b then 1 else 0)
  | .num n => some n
  | .str s => s.toInt?
  | .arr [] => some 0
  | .arr [.bool _] => none
  | .arr [x] => jsToNumberJ x
  | .arr (_ :: _ :: _) => none
  | .obj _ => none

/-- ToNumber on the result of a member access: undefined coerces to NaN. -/
def jsToNumber : Option Json → Option Int
  | none => none
  | some j => jsToNumberJ j

/-- The JavaScript comparison `a > n` with a number on the right: false
whenever either side coerces to NaN. -/
def jsGtNum (a : Option Json) (n : Int) : Bool :=
  match jsToNumber a with
  | some m => decide (m > n)
  | none => false

/-- NK Auth Redirect path location (src line 4). -/
def NkAuthRedirectPath : String := "/nk-auth-redirect"

/-- The browser navigation performed by window.location.assign, with the
URLSearchParams kept structured. -/
structure NavigationTarget where
  base : String
  params : List (String × String)

/-- Data returned from a successful redirect attempt (src interface
IRedirectReturn). -/
structure IRedirectReturn where
  state : JSVal
  code : String

/-- Embeds handleNkLoginRequest (src lines 11-39).  The nanoid(15) call,
Date.now() and window.location.origin are the parameters id, now and
origin; the browser navigation becomes the returned NavigationTarget.
JSON.stringify of the session object always succeeds (the getD branch is
never taken on an object). -/
def handleNkLoginRequest (state : JSVal) (now : Int) (origin : String)
    (id : String) (store : Store) : Store × NavigationTarget :=
  let sessionData : JSVal := .obj [("state", state), ("expiresOn", .num (now + 60 * 1000))]
  let store' := setItem store id (.json ((jsonStringify sessionData).getD .null))
  let urlParams : List (String × String) :=
    [("response_type", "code"),
     ("client_id", "logbook-visualizer"),
     ("redirect_uri", origin ++ NkAuthRedirectPath),
     ("scope", "read"),
     ("state", id)]
  (store', { base := "https://oauth-logbook.nksports.com/oauth/authorize",
             params := urlParams })

/-- Embeds CleanupLocalStorage (src lines 87-99): scans the entries in
order, JSON.parses every value (raising on a non-JSON string), applies the
isRedirectData type guard (raising a TypeError on a parsed null) and
removes matching entries; the index decrement after a removal makes the
indexed loop visit each entry exactly once, which this recursion mirrors.
An error carries the storage contents at the moment the exception
escapes. -/
def CleanupLocalStorage : Store → Except (NkError × Store) Store
  | [] => .ok []
  | (k, v) :: rest =>
    match jsonParse v with
    | .error e => .error (e, (k, v) :: rest)
    | .ok item =>
      match isRedirectData item with
      | .error e => .error (e, (k, v) :: rest)
      | .ok true => CleanupLocalStorage rest
      | .ok false =>
        match CleanupLocalStorage rest with
        | .ok s => .ok ((k, v) :: s)
        | .error (e, s) => .error (e, (k, v) :: s)

/-- Embeds handleNkLoginReturn (src lines 49-81).  The code and state
query parameters of the current URL and Date.now() are parameters; the
result (or the error) carries the storage contents when the handler
returns (or the exception escapes).  The source order is kept: read the
two parameters, on a missing one clean up then throw; otherwise
localStorage.getItem(state), clean up, throw on a missing record, parse
the record, throw when record.expiresOn > now, and return the record
state with the code. -/
def handleNkLoginReturn (code? state? : Option String) (store : Store)
    (now : Int) : Except (NkError × Store) (IRedirectReturn × Store) :=
  match code?, state? with
  | some code, some state =>
    let stateBodyString := store.lookup state
    match CleanupLocalStorage store with
    | .error (e, s) => .error (e, s)
    | .ok store' =>
      match stateBodyString with
      | none => .error (.unknownOrExpiredToken, store')
      | some v =>
        match jsonParse v with
        | .error e => .error (e, store')
        | .ok stateBody =>
          match stateBody.getProp "expiresOn" with
          | .error e => .error (e, store')
          | .ok expiresOn =>
            if jsGtNum expiresOn now then .error (.handshakeExpired, store')
            else
              match stateBody.getProp "state" with
              | .error e => .error (e, store')
              | .ok st =>
                .ok ({ state := match st with
                                | some j => jsonToJS j
                                | none => .undef,
                       code := code }, store')
  | _, _ =>
    match CleanupLocalStorage store with
    | .ok store' => .error (.missingParameters, store')
    | .error (e, s) => .error (e, s)

/-- The contents of local storage after a handleNkLoginReturn attempt,
whether it returned or threw. -/
def afterStore : Except (NkError × Store) (IRedirectReturn × Store) → Store
  | .ok (_, s) => s
  | .error (_, s) => s

end NkAuth

namespace NkAuth

/-! Helper lemmas shared by the claim theorems. -/

/-- On a parsed value other than null the isRedirectData guard cannot
raise and computes the pending-handshake shape check. -/
theorem isRedirectData_eq (j : Json) (h : j ≠ Json.null) :
    isRedirectData j = .ok (isPendingJson j) := by
  cases j with
  | null => exact absurd rfl h
  | obj fs =>
      simp only [isRedirectData, Json.getProp, isPendingJson]
      cases hf : fs.find? (fun p => p.1 == "state") with
      | none => simp [hf]
      | some p =>
          simp only [hf, Option.map_some, Option.isNone_some, Bool.false_eq_true,
            if_false, Option.isSome_some, Bool.true_and]
          cases hg : fs.find? (fun p => p.1 == "expiresOn") <;> simp [hg]
  | bool b => rfl
  | num n => rfl
  | str s => rfl
  | arr xs => rfl

/-- A value the guard rejects is not of the pending-handshake shape. -/
theorem isPending_false_of (j : Json) (h : isRedirectData j = .ok false) :
    isPendingJson j = false := by
  by_cases hj : j = Json.null
  · subst hj; simp [isRedirectData, Json.getProp] at h
  · rw [isRedirectData_eq j hj] at h
    simpa using h

/-- On a store whose values all parse to non-null JSON, the cleanup sweep
returns normally and acts as a filter: it removes exactly the entries of
the pending-handshake shape and keeps every other entry, in order. -/
theorem cleanup_eq_filter (s : Store)
    (h : ∀ e ∈ s, cleanupSafeVal e.2 = true) :
    CleanupLocalStorage s = .ok (s.filter (fun e => !isPendingVal e.2)) := by
  induction s with
  | nil => rfl
  | cons e rest ih =>
      obtain ⟨k, v⟩ := e
      have hv : cleanupSafeVal v = true := h (k, v) (List.mem_cons_self _ _)
      have hrest : ∀ e ∈ rest, cleanupSafeVal e.2 = true :=
        fun e he => h e (List.mem_cons_of_mem _ he)
      cases v with
      | raw s => simp [cleanupSafeVal] at hv
      | json j =>
          have hj : j ≠ Json.null := by
            intro hn; subst hn; simp [cleanupSafeVal] at hv
          simp only [CleanupLocalStorage, jsonParse]
          rw [isRedirectData_eq j hj]
          cases hp : isPendingJson j with
          | true => simp [ih hrest, List.filter_cons, isPendingVal, hp]
          | false => simp [ih hrest, List.filter_cons, isPendingVal, hp]

/-- Whenever the cleanup sweep returns normally, the store it leaves
behind holds no entry of the pending-handshake shape. -/
theorem cleanup_ok_no_pending (s : Store) :
    ∀ s', CleanupLocalStorage s = .ok s' → hasPendingEntry s' = false := by
  induction s with
  | nil =>
      intro s' h
      simp only [CleanupLocalStorage] at h
      cases h
      rfl
  | cons e rest ih =>
      intro s' h
      obtain ⟨k, v⟩ := e
      simp only [CleanupLocalStorage] at h
      cases v with
      | raw s => simp [jsonParse] at h
      | json j =>
          simp only [jsonParse] at h
          cases hi : isRedirectData j with
          | error e' => rw [hi] at h; simp at h
          | ok b =>
              rw [hi] at h
              cases b with
              | true => exact ih s' h
              | false =>
                  cases hr : CleanupLocalStorage rest with
                  | error es => rw [hr] at h; simp at h
                  | ok s'' =>
                      rw [hr] at h
                      simp only [Except.ok.injEq] at h
                      subst h
                      have hpf : isPendingJson j = false := isPending_false_of j hi
                      have ht := ih s'' hr
                      simp only [hasPendingEntry, List.any_cons, isPendingVal, hpf,
                        Bool.false_or] at ht ⊢
                      exact ht

/-- setItem stores the value under the key: a following getItem on the
same key sees it. -/
theorem lookup_setItem (s : Store) (k : String) (v : StoredVal) :
    (setItem s k v).lookup k = some v := by
  induction s with
  | nil => simp [setItem, List.lookup]
  | cons e rest ih =>
      obtain ⟨k', v'⟩ := e
      by_cases h : k' = k
      · subst h; simp [setItem, List.lookup]
      · have hb : (k' == k) = false := beq_eq_false_iff_ne.mpr h
        have hb' : (k == k') = false := beq_eq_false_iff_ne.mpr (Ne.symm h)
        simp [setItem, hb, hb', List.lookup, ih]

/-- getItem misses when no entry carries the key. -/
theorem lookup_eq_none_of (s : Store) (t : String)
    (h : ∀ e ∈ s, e.1 ≠ t) : s.lookup t = none := by
  induction s with
  | nil => rfl
  | cons e rest ih =>
      obtain ⟨k, v⟩ := e
      have hk : k ≠ t := h (k, v) (List.mem_cons_self _ _)
      have hb : (t == k) = false := beq_eq_false_iff_ne.mpr (Ne.symm hk)
      simp [List.lookup, hb, ih (fun e he => h e (List.mem_cons_of_mem _ he))]

/-- With unique keys, getItem finds the entry of any stored pair. -/
theorem lookup_of_mem_nodup (s : Store) (e : String × StoredVal)
    (hnd : (s.map Prod.fst).Nodup) (he : e ∈ s) : s.lookup e.1 = some e.2 := by
  induction s with
  | nil => cases he
  | cons a rest ih =>
      rcases List.mem_cons.mp he with rfl | hmem
      · obtain ⟨k, v⟩ := e
        simp [List.lookup]
      · rw [List.map_cons, List.nodup_cons] at hnd
        obtain ⟨hnotin, hnd'⟩ := hnd
        have hne : e.1 ≠ a.1 := by
          intro hEq
          exact hnotin (hEq ▸ List.mem_map.mpr ⟨e, hmem, rfl⟩)
        have hb : (e.1 == a.1) = false := beq_eq_false_iff_ne.mpr hne
        obtain ⟨k, v⟩ := a
        simp only [List.lookup, hb]
        exact ih hnd' hmem

/-- When both query parameters are present and the cleanup sweep returns
normally, every exit of handleNkLoginReturn, normal or thrown, leaves
exactly the swept store behind. -/
theorem afterStore_cleanup_ok (c tok : String) (store s2 : Store) (now : Int)
    (hcl : CleanupLocalStorage store = .ok s2) :
    afterStore (handleNkLoginReturn (some c) (some tok) store now) = s2 := by
  simp only [handleNkLoginReturn, hcl]
  repeat' split
  all_goals rfl

/-! Claim theorems. -/

/-- C1: the expiry comparison on line 76 of the source is inverted.  The
claim states that a record with expiresOn one millisecond in the past is
rejected with HandshakeExpired and a record with expiresOn one second in
the future is accepted; the code does the exact opposite: with now =
10000 it throws Redirect attempt expired! for a record expiring at 11000
and returns normally for a record that expired at 9999. -/
theorem expiry_comparison_inverted :
    (handleNkLoginReturn (some "c") (some "tok")
        [("tok", .json (.obj [("state", .obj []), ("expiresOn", .num 11000)]))] 10000
      = .error (.handshakeExpired, []))
    ∧ (handleNkLoginReturn (some "c") (some "tok")
        [("tok", .json (.obj [("state", .obj []), ("expiresOn", .num 9999)]))] 10000
      = .ok ({ state := .obj [], code := "c" }, [])) := ⟨rfl, rfl⟩

/-- C2: Initiate followed immediately by Complete with the issued token
does not return the state and code: because of the inverted expiry
comparison the freshly stored record, whose expiresOn lies 60 seconds in
the future, is rejected with Redirect attempt expired!.  Here Initiate
runs at time 0 and Complete at time 5, well within the window. -/
theorem immediate_round_trip_fails :
    handleNkLoginReturn (some "code1") (some "abcdefghijklmno")
        ((handleNkLoginRequest (.obj [("page", .str "/home")]) 0 "https://app.example"
            "abcdefghijklmno" []).1) 5
      = .error (.handshakeExpired, []) := rfl

/-- C3: the cleanup sweep does not always run to completion before a
failure is surfaced.  With a non-JSON entry stored ahead of a pending
handshake record, Complete with both parameters present aborts inside the
sweep with a SyntaxError and the handshake record is still in the store
when the exception escapes. -/
theorem cleanup_abort_leaves_pending_entry :
    (handleNkLoginReturn (some "c") (some "tok")
        [("bad", .raw "oops"),
         ("tok", .json (.obj [("state", .obj []), ("expiresOn", .num 0)]))] 100
      = .error (.syntaxError,
          [("bad", .raw "oops"),
           ("tok", .json (.obj [("state", .obj []), ("expiresOn", .num 0)]))]))
    ∧ hasPendingEntry
        [("bad", .raw "oops"),
         ("tok", .json (.obj [("state", .obj []), ("expiresOn", .num 0)]))] = true :=
  ⟨rfl, rfl⟩

/-- C4 counterexample: with a non-JSON entry in the store, Complete on a
URL lacking the code parameter does not fail with MissingParameters: the
cleanup sweep it runs first raises a SyntaxError, which is the error that
escapes. -/
theorem missing_params_counterexample :
    handleNkLoginReturn none (some "t") [("bad", .raw "oops")] 0
      = .error (.syntaxError, [("bad", .raw "oops")])
    ∧ (match handleNkLoginReturn none (some "t") [("bad", .raw "oops")] 0 with
       | .error (.missingParameters, _) => False
       | _ => True) := ⟨rfl, trivial⟩

/-- C4 amended: if the code or the state query parameter is absent and
every stored value parses as non-null JSON (so the sweep cannot raise),
Complete runs the cleanup sweep and then fails with MissingParameters,
leaving the store free of pending-handshake entries. -/
theorem missing_params_spec (oc os : Option String) (store s' : Store) (now : Int)
    (h : oc = none ∨ os = none)
    (hcl : CleanupLocalStorage store = .ok s') :
    handleNkLoginReturn oc os store now = .error (.missingParameters, s')
    ∧ hasPendingEntry s' = false := by
  refine ⟨?_, cleanup_ok_no_pending store s' hcl⟩
  rcases h with h | h
  · subst h
    cases os <;> simp [handleNkLoginReturn, hcl]
  · subst h
    cases oc <;> simp [handleNkLoginReturn, hcl]

/-- C4 witness: a URL lacking the code parameter against a store holding
one pending handshake record fails with MissingParameters and leaves the
store empty. -/
theorem missing_params_spec_witness :
    (CleanupLocalStorage
        [("t", .json (.obj [("state", Json.null), ("expiresOn", Json.num 0)]))] = .ok [])
    ∧ (handleNkLoginReturn none (some "t")
          [("t", .json (.obj [("state", Json.null), ("expiresOn", Json.num 0)]))] 0
          = .error (.missingParameters, [])
        ∧ hasPendingEntry ([] : Store) = false) :=
  ⟨rfl, missing_params_spec none (some "t") _ [] 0 (Or.inl rfl) rfl⟩

/-- C5 counterexample: with a non-JSON entry in the store, Complete on a
URL whose state value matches no stored record does not fail with
UnknownOrExpiredToken: the cleanup sweep raises a SyntaxError first. -/
theorem unknown_token_counterexample :
    handleNkLoginReturn (some "c") (some "t") [("bad", .raw "oops")] 0
      = .error (.syntaxError, [("bad", .raw "oops")])
    ∧ (match handleNkLoginReturn (some "c") (some "t") [("bad", .raw "oops")] 0 with
       | .error (.unknownOrExpiredToken, _) => False
       | _ => True) := ⟨rfl, trivial⟩

/-- C5 amended: if both query parameters are present, no record is stored
under the state value, and every stored value parses as non-null JSON (so
the sweep cannot raise), Complete fails with UnknownOrExpiredToken and
the error surfaces only after the cleanup sweep has run, as witnessed by
the store the failure leaves behind being the swept store. -/
theorem unknown_token_spec (c tok : String) (store s' : Store) (now : Int)
    (hlk : store.lookup tok = none)
    (hcl : CleanupLocalStorage store = .ok s') :
    handleNkLoginReturn (some c) (some tok) store now
      = .error (.unknownOrExpiredToken, s') := by
  simp [handleNkLoginReturn, hlk, hcl]

/-- C5 witness: a well-formed but unrecognized state value against a
store holding one pending record under another key fails with
UnknownOrExpiredToken after the sweep has emptied the store. -/
theorem unknown_token_spec_witness :
    (([("p", StoredVal.json (Json.obj [("state", Json.num 1), ("expiresOn", Json.num 2)]))] :
        Store).lookup "t" = none)
    ∧ (CleanupLocalStorage
        [("p", StoredVal.json (Json.obj [("state", Json.num 1), ("expiresOn", Json.num 2)]))]
        = .ok [])
    ∧ handleNkLoginReturn (some "c") (some "t")
        [("p", StoredVal.json (Json.obj [("state", Json.num 1), ("expiresOn", Json.num 2)]))] 0
      = .error (.unknownOrExpiredToken, []) :=
  ⟨rfl, rfl, unknown_token_spec "c" "t" _ [] 0 rfl rfl⟩

/-- C6: the cleanup sweep does not tolerate non-JSON entries.  On a store
holding a single entry whose value is not valid JSON, CleanupLocalStorage
raises a SyntaxError from JSON.parse instead of leaving the entry alone
and returning normally. -/
theorem cleanup_raises_on_malformed :
    CleanupLocalStorage [("k", .raw "oops")]
      = .error (.syntaxError, [("k", .raw "oops")]) := rfl

/-- C7 counterexample: on a store holding an unrelated JSON entry and a
non-JSON entry, Cleanup does not leave the non-matching entries untouched
and return: it raises a SyntaxError. -/
theorem cleanup_total_counterexample :
    CleanupLocalStorage [("u", .json (.str "unrelated")), ("bad", .raw "oops")]
      = .error (.syntaxError, [("u", .json (.str "unrelated")), ("bad", .raw "oops")])
    ∧ (match CleanupLocalStorage [("u", .json (.str "unrelated")), ("bad", .raw "oops")] with
       | .ok _ => False
       | .error _ => True) := ⟨rfl, trivial⟩

/-- C7 amended: on every store whose values all parse as non-null JSON,
Cleanup removes exactly the entries whose parsed value carries both a
state and an expiresOn field and leaves every other entry untouched, in
order. -/
theorem cleanup_filters_pending_spec (s : Store)
    (hwf : s.all (fun e => cleanupSafeVal e.2) = true) :
    CleanupLocalStorage s = .ok (s.filter (fun e => !isPendingVal e.2)) :=
  cleanup_eq_filter s (by simpa [List.all_eq_true] using hwf)

/-- C7 witness: a store with one unrelated JSON entry and one expired
handshake entry retains only the unrelated entry after Cleanup. -/
theorem cleanup_filters_pending_spec_witness :
    (([("u", StoredVal.json (Json.str "unrelated")),
       ("e1", StoredVal.json (Json.obj [("state", Json.obj []), ("expiresOn", Json.num 0)]))] :
        Store).all (fun e => cleanupSafeVal e.2) = true)
    ∧ CleanupLocalStorage
        [("u", StoredVal.json (Json.str "unrelated")),
         ("e1", StoredVal.json (Json.obj [("state", Json.obj []), ("expiresOn", Json.num 0)]))]
      = .ok [("u", StoredVal.json (Json.str "unrelated"))] :=
  ⟨rfl, cleanup_filters_pending_spec _ rfl⟩

/-- C8: Initiate with a serializable state stores the JSON record with
the state and expiresOn = now + 60000 under the generated token as key,
and navigates to the provider authorization URL carrying exactly the
query parameters response_type=code, the fixed client identifier, the
redirect URI built from the origin and the reserved path, scope=read and
state = the token.  The nanoid(15) token is a parameter of the embedding
together with its contract of producing a 15-character identifier; its
cryptographic strength lives outside the embedding. -/
theorem initiate_spec (S : JSVal) (j : Json) (now : Int) (origin id : String)
    (store : Store) (hS : jsonStringify S = some j) (hid : id.length = 15) :
    ((handleNkLoginRequest S now origin id store).1).lookup id
        = some (.json (.obj [("state", j), ("expiresOn", .num (now + 60 * 1000))]))
    ∧ (handleNkLoginRequest S now origin id store).2
        = { base := "https://oauth-logbook.nksports.com/oauth/authorize",
            params := [("response_type", "code"),
                       ("client_id", "logbook-visualizer"),
                       ("redirect_uri", origin ++ NkAuthRedirectPath),
                       ("scope", "read"),
                       ("state", id)] }
    ∧ 15 ≤ id.length := by
  refine ⟨?_, rfl, le_of_eq hid.symm⟩
  have hrec : (jsonStringify (.obj [("state", S), ("expiresOn", .num (now + 60000))])).getD .null
      = Json.obj [("state", j), ("expiresOn", .num (now + 60000))] := by
    simp [jsonStringify, stringifyFields, hS]
  simp [handleNkLoginRequest, hrec, lookup_setItem]

/-- C8 witness: a concrete Initiate call stores the record and produces
the authorization URL with exactly the five query parameters. -/
theorem initiate_spec_witness :
    (jsonStringify (JSVal.obj [("r", JSVal.str "/x")]) = some (Json.obj [("r", Json.str "/x")]))
    ∧ ("abcdefghijklmno".length = 15)
    ∧ (((handleNkLoginRequest (JSVal.obj [("r", JSVal.str "/x")]) 7 "https://app.example"
            "abcdefghijklmno" []).1).lookup "abcdefghijklmno"
          = some (.json (.obj [("state", Json.obj [("r", Json.str "/x")]),
                               ("expiresOn", Json.num 60007)]))
        ∧ (handleNkLoginRequest (JSVal.obj [("r", JSVal.str "/x")]) 7 "https://app.example"
            "abcdefghijklmno" []).2
          = { base := "https://oauth-logbook.nksports.com/oauth/authorize",
              params := [("response_type", "code"),
                         ("client_id", "logbook-visualizer"),
                         ("redirect_uri", "https://app.example" ++ NkAuthRedirectPath),
                         ("scope", "read"),
                         ("state", "abcdefghijklmno")] }
        ∧ 15 ≤ "abcdefghijklmno".length) :=
  ⟨rfl, rfl,
    initiate_spec (JSVal.obj [("r", JSVal.str "/x")]) (Json.obj [("r", Json.str "/x")]) 7
      "https://app.example" "abcdefghijklmno" [] rfl rfl⟩

/-- C9: the state a successful Complete returns is the JSON round trip of
the state Initiate was given, not the original value: when the state
serializes to j, the returned state is the runtime value of j, and it
equals the original exactly when the original is a fixed point of the
round trip.  Because of the inverted expiry comparison a successful
Complete requires the completion time to lie at or past the stored
expiresOn, which the hypothesis on the two times provides. -/
theorem returned_state_roundtrip (S : JSVal) (j : Json) (c origin id : String)
    (t0 t1 : Int) (hS : jsonStringify S = some j) (ht : t0 + 60 * 1000 ≤ t1) :
    handleNkLoginReturn (some c) (some id)
        ((handleNkLoginRequest S t0 origin id []).1) t1
      = .ok ({ state := jsonToJS j, code := c }, [])
    ∧ (jsonToJS j = S ↔ (jsonStringify S).map jsonToJS = some S) := by
  constructor
  · have hstore : (handleNkLoginRequest S t0 origin id []).1
        = [(id, .json (.obj [("state", j), ("expiresOn", .num (t0 + 60 * 1000))]))] := by
      simp [handleNkLoginRequest, setItem, jsonStringify, stringifyFields, hS]
    rw [hstore]
    have hb1 : (("state" : String) == "state") = true := rfl
    have hb2 : (("state" : String) == "expiresOn") = false := rfl
    have hb3 : (("expiresOn" : String) == "expiresOn") = true := rfl
    have hgt : jsGtNum (some (.num (t0 + 60000))) t1 = false := by
      simp only [jsGtNum, jsToNumber, jsToNumberJ]
      simp only [decide_eq_false_iff_not]
      omega
    simp [handleNkLoginReturn, CleanupLocalStorage, jsonParse, isRedirectData,
      Json.getProp, List.lookup, hb1, hb2, hb3, hgt]
  · rw [hS]
    simp [Option.map_some, Option.some.injEq, eq_comm]

/-- C9 witness: a state object with one undefined-valued member is not a
fixed point of the round trip; the completed handshake returns the empty
object the serialization reduced it to, not the original. -/
theorem returned_state_roundtrip_witness :
    (jsonStringify (JSVal.obj [("a", JSVal.undef)]) = some (Json.obj []))
    ∧ ((0 : Int) + 60 * 1000 ≤ 60000)
    ∧ (handleNkLoginReturn (some "c0") (some "tok")
          ((handleNkLoginRequest (JSVal.obj [("a", JSVal.undef)]) 0 "o" "tok" []).1) 60000
        = .ok ({ state := jsonToJS (Json.obj []), code := "c0" }, [])
        ∧ (jsonToJS (Json.obj []) = JSVal.obj [("a", JSVal.undef)]
            ↔ (jsonStringify (JSVal.obj [("a", JSVal.undef)])).map jsonToJS
                = some (JSVal.obj [("a", JSVal.undef)]))) :=
  ⟨rfl, by decide,
    returned_state_roundtrip (JSVal.obj [("a", JSVal.undef)]) (Json.obj []) "c0" "o" "tok"
      0 60000 rfl (by decide)⟩

/-- C10 counterexample: a record is not single-use when the value stored
under the state key is not of the pending-handshake shape.  With the
number 5 stored under the token, a Complete attempt with both parameters
present succeeds, the sweep leaves the entry in place, and the attempt on
the store it leaves behind, shown literally here, succeeds again instead
of failing with UnknownOrExpiredToken. -/
theorem single_use_counterexample :
    handleNkLoginReturn (some "c") (some "t") [("t", .json (.num 5))] 100
      = .ok ({ state := .undef, code := "c" }, [("t", .json (.num 5))])
    ∧ afterStore (handleNkLoginReturn (some "c") (some "t") [("t", .json (.num 5))] 100)
      = [("t", .json (.num 5))]
    ∧ (match handleNkLoginReturn (some "c") (some "t") [("t", .json (.num 5))] 100 with
       | .error (.unknownOrExpiredToken, _) => False
       | _ => True) := ⟨rfl, rfl, trivial⟩

/-- C10 amended: after a Complete attempt with both parameters present,
on a store with unique keys whose values all parse as non-null JSON and
in which the record under the state key, when present, is of the
pending-handshake shape, a second Complete against the same URL fails
with UnknownOrExpiredToken: the sweep of the first attempt removed the
record. -/
theorem single_use_spec (store : Store) (c tok : String) (now now2 : Int)
    (hnd : (store.map Prod.fst).Nodup)
    (hwf : store.all (fun e => cleanupSafeVal e.2) = true)
    (hpend : (store.lookup tok).all isPendingVal = true) :
    handleNkLoginReturn (some c) (some tok)
        (afterStore (handleNkLoginReturn (some c) (some tok) store now)) now2
      = .error (.unknownOrExpiredToken, store.filter (fun e => !isPendingVal e.2)) := by
  have hwf' : ∀ e ∈ store, cleanupSafeVal e.2 = true := by
    simpa [List.all_eq_true] using hwf
  have hcl := cleanup_eq_filter store hwf'
  rw [afterStore_cleanup_ok c tok store _ now hcl]
  have hmem : ∀ e ∈ store.filter (fun e => !isPendingVal e.2), e.1 ≠ tok := by
    intro e he hEq
    have h1 : e ∈ store := List.mem_of_mem_filter he
    have h2 : (!isPendingVal e.2) = true := (List.mem_filter.mp he).2
    have h3 : store.lookup tok = some e.2 := by
      rw [← hEq]; exact lookup_of_mem_nodup store e hnd h1
    have h4 : isPendingVal e.2 = true := by simpa [h3] using hpend
    simp [h4] at h2
  have hlk : (store.filter (fun e => !isPendingVal e.2)).lookup tok = none :=
    lookup_eq_none_of _ tok hmem
  have hwf2 : ∀ e ∈ store.filter (fun e => !isPendingVal e.2), cleanupSafeVal e.2 = true :=
    fun e he => hwf' e (List.mem_of_mem_filter he)
  have hfix : (store.filter (fun e => !isPendingVal e.2)).filter (fun e => !isPendingVal e.2)
      = store.filter (fun e => !isPendingVal e.2) := by
    apply List.filter_eq_self.mpr
    intro e he
    exact (List.mem_filter.mp he).2
  have hcl2 : CleanupLocalStorage (store.filter (fun e => !isPendingVal e.2))
      = .ok (store.filter (fun e => !isPendingVal e.2)) := by
    rw [cleanup_eq_filter _ hwf2, hfix]
  simp [handleNkLoginReturn, hlk, hcl2]

/-- C10 witness: a store holding a pending record under the token and an
unrelated entry; after the first attempt, the second attempt on the store
it left behind fails with UnknownOrExpiredToken. -/
theorem single_use_spec_witness :
    ((([("t", StoredVal.json (Json.obj [("state", Json.null), ("expiresOn", Json.num 0)])),
        ("u", StoredVal.json (Json.str "x"))] : Store).map Prod.fst).Nodup)
    ∧ (([("t", StoredVal.json (Json.obj [("state", Json.null), ("expiresOn", Json.num 0)])),
         ("u", StoredVal.json (Json.str "x"))] : Store).all
          (fun e => cleanupSafeVal e.2) = true)
    ∧ ((([("t", StoredVal.json (Json.obj [("state", Json.null), ("expiresOn", Json.num 0)])),
          ("u", StoredVal.json (Json.str "x"))] : Store).lookup "t").all isPendingVal = true)
    ∧ handleNkLoginReturn (some "cc") (some "t")
        (afterStore (handleNkLoginReturn (some "cc") (some "t")
          [("t", StoredVal.json (Json.obj [("state", Json.null), ("expiresOn", Json.num 0)])),
           ("u", StoredVal.json (Json.str "x"))] 5)) 6
      = .error (.unknownOrExpiredToken, [("u", StoredVal.json (Json.str "x"))]) :=
  ⟨by decide, rfl, rfl,
    single_use_spec
      [("t", StoredVal.json (Json.obj [("state", Json.null), ("expiresOn", Json.num 0)])),
       ("u", StoredVal.json (Json.str "x"))] "cc" "t" 5 6 (by decide) rfl rfl⟩

end NkAuth
